import Mathlib

/-!
Shallow embedding of the device session controller of `src/src/bin/gui.rs`
(struct `RoboclawGUI` and its methods `connect`, `disconnect`,
`emergency_stop`, `update_motor_speeds`, `update_mixed_control`,
`read_status`, and the Reset Encoders button handler).

Modelling choices:
* `f32` slider values and voltages are embedded as exact rationals `ℚ`;
  the Rust cast `expr as i32` (truncation toward zero) is `truncToI32`.
* `Instant` timestamps are milliseconds as `Nat`; `last_update.elapsed()`
  at current time `now` is `now - last_update`.
* The opaque device handle `Option<Roboclaw>` is `Option Unit`; each
  fallible device operation's outcome is supplied as an `Except String`
  value (the `String` is the displayed error text), so a poll pass takes a
  `DeviceResponses` record and a command send takes an `Except String Unit`.
* `StatusFlags`, `ConfigFlags` and `BufferStatus` are opaque payloads,
  embedded as `Nat`.
* Rust's `str::contains` is `strContains` below.
-/

/-- Does the pattern match at the head of the list? (helper for `strContains`). -/
def patAtHead : List Char → List Char → Bool
  | [], _ => true
  | _ :: _, [] => false
  | a :: as, b :: bs => (decide (a = b)) && patAtHead as bs

/-- Does the pattern occur as a contiguous run anywhere in the list? -/
def containsPat (pat : List Char) : List Char → Bool
  | [] => patAtHead pat []
  | b :: bs => patAtHead pat (b :: bs) || containsPat pat bs

/-- Embedding of Rust `s.contains(pat)`: substring test. -/
def strContains (s pat : String) : Bool := containsPat pat.data s.data

/-- Embedding of the Rust cast `q as i32`: truncation toward zero
(slider-derived values never reach the `i32` saturation bounds). -/
def truncToI32 (q : ℚ) : Int := Int.tdiv q.num (q.den : Int)

/-- Opaque fault-flag register payload (`roboclaw::StatusFlags`). -/
abbrev StatusFlags := Nat

/-- Opaque config-flag register payload (`roboclaw::ConfigFlags`). -/
abbrev ConfigFlags := Nat

/-- Opaque buffer-occupancy payload (`roboclaw::BufferStatus`). -/
abbrev BufferStatus := Nat

/-- The session state: struct `RoboclawGUI` of `gui.rs`, field for field. -/
structure RoboclawGUI where
  port_name : String
  baud_rate : Nat
  connected : Bool
  m1_speed : ℚ
  m2_speed : ℚ
  mixed_speed : ℚ
  mixed_turn : ℚ
  main_battery_voltage : Option ℚ
  logic_battery_voltage : Option ℚ
  encoder_m1 : Option Nat
  encoder_m2 : Option Nat
  status_flags : Option StatusFlags
  config_flags : Option ConfigFlags
  buffer_status : Option (BufferStatus × BufferStatus)
  last_update : Nat
  status_message : String
  roboclaw : Option Unit

/-- `impl Default for RoboclawGUI` (startup state; `Instant::now()` is time 0). -/
def defaultGUI : RoboclawGUI where
  port_name := "/dev/tty.usbmodem101"
  baud_rate := 38400
  connected := false
  m1_speed := 0
  m2_speed := 0
  mixed_speed := 0
  mixed_turn := 0
  main_battery_voltage := none
  logic_battery_voltage := none
  encoder_m1 := none
  encoder_m2 := none
  status_flags := none
  config_flags := none
  buffer_status := none
  last_update := 0
  status_message := "Disconnected"
  roboclaw := none

/-- Outcomes of the six device reads issued by one pass of `read_status`. -/
structure DeviceResponses where
  main_voltage : Except String ℚ
  logic_voltage : Except String ℚ
  encoders : Except String (Nat × Nat)
  error_flags : Except String StatusFlags
  config : Except String ConfigFlags
  buffers : Except String (BufferStatus × BufferStatus)

/-- `RoboclawGUI::connect` (gui.rs:65-92); `r` is the outcome of the serial
port open. On failure the `map_err` closure has already set the status
message, so the trailing `is_empty` branch is kept but is dead. -/
def connect (r : Except String Unit) (s : RoboclawGUI) : RoboclawGUI :=
  match r with
  | .ok _ =>
    { s with roboclaw := some (), connected := true,
             status_message := "Connected - Testing communication..." }
  | .error e =>
    let s1 := { s with status_message := "Failed to open port: " ++ e }
    if s1.status_message = "" then
      { s1 with status_message := "Failed to initialize Roboclaw" }
    else s1

/-- `RoboclawGUI::disconnect` (gui.rs:94-98). -/
def disconnect (s : RoboclawGUI) : RoboclawGUI :=
  { s with roboclaw := none, connected := false, status_message := "Disconnected" }

/-- `RoboclawGUI::emergency_stop` (gui.rs:100-109). Second component: the
`speed_m1_m2` call issued, if any (its result is discarded by `let _ =`). -/
def emergency_stop (s : RoboclawGUI) : RoboclawGUI × Option (Int × Int) :=
  match s.roboclaw with
  | none => (s, none)
  | some _ =>
    ({ s with m1_speed := 0, m2_speed := 0, mixed_speed := 0, mixed_turn := 0 },
     some (0, 0))

/-- `RoboclawGUI::update_motor_speeds` (gui.rs:111-128); `res` is the outcome
of the `speed_m1_m2` send. Second component: the call issued, if any. -/
def update_motor_speeds (res : Except String Unit) (s : RoboclawGUI) :
    RoboclawGUI × Option (Int × Int) :=
  match s.roboclaw with
  | none => (s, none)
  | some _ =>
    let m1_speed_i32 : Int := truncToI32 (s.m1_speed * 1000)
    let m2_speed_i32 : Int := truncToI32 (s.m2_speed * 1000)
    match res with
    | .ok _ =>
      (if !(strContains s.status_message "Failed to read") then
        { s with status_message := "Connected" }
      else s, some (m1_speed_i32, m2_speed_i32))
    | .error e =>
      ({ s with status_message :=
          "Motor control error: " ++ e ++ " (M1:" ++ toString m1_speed_i32 ++
          ", M2:" ++ toString m2_speed_i32 ++ ")" },
       some (m1_speed_i32, m2_speed_i32))

/-- `RoboclawGUI::update_mixed_control` (gui.rs:130-151). -/
def update_mixed_control (res : Except String Unit) (s : RoboclawGUI) :
    RoboclawGUI × Option (Int × Int) :=
  match s.roboclaw with
  | none => (s, none)
  | some _ =>
    let base_speed : ℚ := s.mixed_speed * 1000
    let turn_adjustment : ℚ := s.mixed_turn * 500
    let left_speed : Int := truncToI32 (base_speed - turn_adjustment)
    let right_speed : Int := truncToI32 (base_speed + turn_adjustment)
    match res with
    | .ok _ =>
      (if !(strContains s.status_message "Failed to read") then
        { s with status_message := "Connected" }
      else s, some (left_speed, right_speed))
    | .error e =>
      ({ s with status_message :=
          "Mixed control error: " ++ e ++ " (L:" ++ toString left_speed ++
          ", R:" ++ toString right_speed ++ ")" },
       some (left_speed, right_speed))

/-- Main-battery-voltage read of one `read_status` pass (gui.rs:166-173). -/
def step_main (r : DeviceResponses) (s : RoboclawGUI) : RoboclawGUI :=
  match r.main_voltage with
  | .ok voltage => { s with main_battery_voltage := some voltage }
  | .error _ =>
    if !(strContains s.status_message "Motor control error") &&
       !(strContains s.status_message "Mixed control error") then
      { s with status_message := "Failed to read main battery voltage" }
    else s

/-- Logic-battery-voltage read of one `read_status` pass (gui.rs:175-181). -/
def step_logic (r : DeviceResponses) (s : RoboclawGUI) : RoboclawGUI :=
  match r.logic_voltage with
  | .ok voltage => { s with logic_battery_voltage := some voltage }
  | .error _ =>
    if !(strContains s.status_message "Motor control error") &&
       !(strContains s.status_message "Mixed control error") then
      { s with status_message := "Failed to read logic battery voltage" }
    else s

/-- Encoder read of one `read_status` pass (gui.rs:183-191). -/
def step_enc (r : DeviceResponses) (s : RoboclawGUI) : RoboclawGUI :=
  match r.encoders with
  | .ok enc => { s with encoder_m1 := some enc.1, encoder_m2 := some enc.2 }
  | .error _ =>
    if !(strContains s.status_message "Motor control error") &&
       !(strContains s.status_message "Mixed control error") then
      { s with status_message := "Failed to read encoders" }
    else s

/-- Fault-flag-register read of one `read_status` pass (gui.rs:193-209). -/
def step_err (r : DeviceResponses) (s : RoboclawGUI) : RoboclawGUI :=
  match r.error_flags with
  | .ok flags =>
    let s1 := { s with status_flags := some flags }
    if !(strContains s1.status_message "Motor control error") &&
       !(strContains s1.status_message "Mixed control error") then
      { s1 with status_message := "Connected" }
    else s1
  | .error e =>
    if !(strContains s.status_message "Motor control error") &&
       !(strContains s.status_message "Mixed control error") then
      { s with status_message := "Failed to read error status: " ++ e }
    else s

/-- Config-register read of one `read_status` pass (gui.rs:211-218). -/
def step_config (r : DeviceResponses) (s : RoboclawGUI) : RoboclawGUI :=
  match r.config with
  | .ok config => { s with config_flags := some config }
  | .error _ =>
    if !(strContains s.status_message "Motor control error") &&
       !(strContains s.status_message "Mixed control error") &&
       !(strContains s.status_message "Failed to read error status") then
      { s with status_message := "Failed to read config" }
    else s

/-- Buffer-occupancy read of one `read_status` pass (gui.rs:220-227). -/
def step_buffers (r : DeviceResponses) (s : RoboclawGUI) : RoboclawGUI :=
  match r.buffers with
  | .ok buffers => { s with buffer_status := some buffers }
  | .error _ =>
    if !(strContains s.status_message "Motor control error") &&
       !(strContains s.status_message "Mixed control error") &&
       !(strContains s.status_message "Failed to read error status") then
      { s with status_message := "Failed to read buffers" }
    else s

/-- The six reads of one poll pass, in source order (gui.rs:165-227). -/
def read_status_body (r : DeviceResponses) (s : RoboclawGUI) : RoboclawGUI :=
  step_buffers r (step_config r (step_err r (step_enc r (step_logic r (step_main r s)))))

/-- The adaptive polling interval in ms (gui.rs:156-161). -/
def polling_interval (s : RoboclawGUI) : Nat :=
  if strContains s.status_message "crc error" ||
     strContains s.status_message "Failed to read" then 2000 else 500

/-- `RoboclawGUI::read_status` (gui.rs:153-232); `now` is the current time in
ms. Second component: whether the pass ran (i.e. device reads were issued). -/
def read_status (now : Nat) (r : DeviceResponses) (s : RoboclawGUI) :
    RoboclawGUI × Bool :=
  match s.roboclaw with
  | none => (s, false)
  | some _ =>
    if now - s.last_update > polling_interval s then
      ({ read_status_body r s with last_update := now }, true)
    else (s, false)

/-- The Reset Encoders button handler (gui.rs:437-443); `r` is the outcome of
the device `reset_encoders` call (issued only when a handle is present). -/
def reset_encoders_click (r : Except String Unit) (s : RoboclawGUI) : RoboclawGUI :=
  match s.roboclaw with
  | none => s
  | some _ =>
    match r with
    | .ok _ => s
    | .error e => { s with status_message := "Reset encoders error: " ++ e }

/-- A sequence of poll passes (successive calls of `read_status`), each with
its own current time and device outcomes. -/
def poll_passes : List (Nat × DeviceResponses) → RoboclawGUI → RoboclawGUI
  | [], s => s
  | p :: rest, s => poll_passes rest (read_status p.1 p.2 s).1

/-! ### Concrete sample states and device outcomes, used as test inputs -/

/-- A freshly connected session showing the neutral "Connected" message. -/
def sConn : RoboclawGUI :=
  { defaultGUI with roboclaw := some (), connected := true, status_message := "Connected" }

/-- A pass in which every device read succeeds. -/
def dr_allOk : DeviceResponses where
  main_voltage := .ok 12
  logic_voltage := .ok 5
  encoders := .ok (100, 200)
  error_flags := .ok 0
  config := .ok 0
  buffers := .ok (0, 0)

/-- A pass in which every device read fails with a CRC error. -/
def dr_allErr : DeviceResponses where
  main_voltage := .error "crc error"
  logic_voltage := .error "crc error"
  encoders := .error "crc error"
  error_flags := .error "crc error"
  config := .error "crc error"
  buffers := .error "crc error"

/-- A pass in which only the main-battery-voltage read succeeds. -/
def dr_mix : DeviceResponses where
  main_voltage := .ok 12
  logic_voltage := .error "crc error"
  encoders := .error "crc error"
  error_flags := .error "crc error"
  config := .error "crc error"
  buffers := .error "crc error"

/-- Disconnected session whose M1 slider is at 5 percent. -/
def s_c1 : RoboclawGUI := { defaultGUI with m1_speed := 5 }

/-- Connected session with nonzero slider values. -/
def s_c1w : RoboclawGUI :=
  { defaultGUI with roboclaw := some (), connected := true, m1_speed := 7, mixed_turn := -3 }

/-- Connected session currently displaying a reset-encoders error. -/
def s_c2 : RoboclawGUI :=
  { defaultGUI with
      roboclaw := some ()
      connected := true
      status_message := "Reset encoders error: timeout" }

/-- Connected session currently displaying a motor-control error. -/
def s_c3 : RoboclawGUI :=
  { defaultGUI with
      roboclaw := some ()
      connected := true
      status_message := "Motor control error: timeout (M1:1000, M2:0)" }

/-- Connected session currently displaying the fault-register read failure. -/
def s_c5 : RoboclawGUI :=
  { defaultGUI with
      roboclaw := some ()
      connected := true
      status_message := "Failed to read error status: crc error" }

/-- Connected session with the mixed sliders at (speed 40, turn 20). -/
def s_c7 : RoboclawGUI :=
  { defaultGUI with roboclaw := some (), connected := true, mixed_speed := 40, mixed_turn := 20 }

/-- Connected session with the individual sliders at (M1 50, M2 -25). -/
def s_c8 : RoboclawGUI :=
  { defaultGUI with roboclaw := some (), connected := true, m1_speed := 50, m2_speed := -25 }

/-- The guard used at every telemetry write site (gui.rs:170 etc.): a motor- or
mixed-control-error message is currently displayed. -/
abbrev motor_err_shown (s : RoboclawGUI) : Prop :=
  strContains s.status_message "Motor control error" = true ∨
  strContains s.status_message "Mixed control error" = true

/-- The implicit invariant of C10: the `connected` flag is set exactly when
the device handle is present. -/
abbrev conn_inv (s : RoboclawGUI) : Prop := s.connected = s.roboclaw.isSome

/-! ### Generic helper lemmas -/

theorem patAtHead_append_of (p : List Char) : ∀ (q t : List Char),
    patAtHead p q = true → patAtHead p (q ++ t) = true := by
  induction p with
  | nil => intro q t _; rfl
  | cons a as ih =>
    intro q t h
    cases q with
    | nil => exact absurd h (by simp [patAtHead])
    | cons b bs =>
      simp only [patAtHead, Bool.and_eq_true, decide_eq_true_eq] at h ⊢
      exact ⟨h.1, ih bs t h.2⟩

theorem containsPat_of_atHead (p l : List Char) (h : patAtHead p l = true) :
    containsPat p l = true := by
  cases l with
  | nil => simpa [containsPat] using h
  | cons b bs => simp [containsPat, h]

theorem strContains_of_atHead (s pat : String) (h : patAtHead pat.data s.data = true) :
    strContains s pat = true :=
  containsPat_of_atHead _ _ h

theorem strContains_errmark (e : String) :
    strContains ("Failed to read error status: " ++ e) "Failed to read error status" = true := by
  have hd : ("Failed to read error status: " ++ e).data =
      ("Failed to read error status: ").data ++ e.data := by
    cases e; rfl
  refine strContains_of_atHead _ _ ?_
  rw [hd]
  exact patAtHead_append_of _ _ _ (by decide)

/-! ### Per-read-step characterisation lemmas -/

theorem step_main_sets (r : DeviceResponses) (s : RoboclawGUI) :
    (step_main r s).main_battery_voltage =
      (match r.main_voltage with
       | .ok v => some v
       | .error _ => s.main_battery_voltage) := by
  cases hr : r.main_voltage <;> simp [step_main, hr, apply_ite]

theorem step_logic_sets (r : DeviceResponses) (s : RoboclawGUI) :
    (step_logic r s).logic_battery_voltage =
      (match r.logic_voltage with
       | .ok v => some v
       | .error _ => s.logic_battery_voltage) := by
  cases hr : r.logic_voltage <;> simp [step_logic, hr, apply_ite]

theorem step_enc_sets (r : DeviceResponses) (s : RoboclawGUI) :
    (step_enc r s).encoder_m1 =
      (match r.encoders with
       | .ok enc => some enc.1
       | .error _ => s.encoder_m1) ∧
    (step_enc r s).encoder_m2 =
      (match r.encoders with
       | .ok enc => some enc.2
       | .error _ => s.encoder_m2) := by
  cases hr : r.encoders <;> constructor <;> simp [step_enc, hr, apply_ite]

theorem step_err_sets (r : DeviceResponses) (s : RoboclawGUI) :
    (step_err r s).status_flags =
      (match r.error_flags with
       | .ok flags => some flags
       | .error _ => s.status_flags) := by
  cases hr : r.error_flags <;> simp [step_err, hr, apply_ite]

theorem step_config_sets (r : DeviceResponses) (s : RoboclawGUI) :
    (step_config r s).config_flags =
      (match r.config with
       | .ok config => some config
       | .error _ => s.config_flags) := by
  cases hr : r.config <;> simp [step_config, hr, apply_ite]

theorem step_buffers_sets (r : DeviceResponses) (s : RoboclawGUI) :
    (step_buffers r s).buffer_status =
      (match r.buffers with
       | .ok buffers => some buffers
       | .error _ => s.buffer_status) := by
  cases hr : r.buffers <;> simp [step_buffers, hr, apply_ite]

/-! ### Per-read-step frame lemmas: fields a step does not touch -/

theorem step_main_keeps_logic (r : DeviceResponses) (s : RoboclawGUI) :
    (step_main r s).logic_battery_voltage = s.logic_battery_voltage := by
  cases hr : r.main_voltage <;> simp [step_main, hr, apply_ite]

theorem step_main_keeps_enc1 (r : DeviceResponses) (s : RoboclawGUI) :
    (step_main r s).encoder_m1 = s.encoder_m1 := by
  cases hr : r.main_voltage <;> simp [step_main, hr, apply_ite]

theorem step_main_keeps_enc2 (r : DeviceResponses) (s : RoboclawGUI) :
    (step_main r s).encoder_m2 = s.encoder_m2 := by
  cases hr : r.main_voltage <;> simp [step_main, hr, apply_ite]

theorem step_main_keeps_sflags (r : DeviceResponses) (s : RoboclawGUI) :
    (step_main r s).status_flags = s.status_flags := by
  cases hr : r.main_voltage <;> simp [step_main, hr, apply_ite]

theorem step_main_keeps_cflags (r : DeviceResponses) (s : RoboclawGUI) :
    (step_main r s).config_flags = s.config_flags := by
  cases hr : r.main_voltage <;> simp [step_main, hr, apply_ite]

theorem step_main_keeps_buf (r : DeviceResponses) (s : RoboclawGUI) :
    (step_main r s).buffer_status = s.buffer_status := by
  cases hr : r.main_voltage <;> simp [step_main, hr, apply_ite]

theorem step_main_keeps_conn (r : DeviceResponses) (s : RoboclawGUI) :
    (step_main r s).connected = s.connected := by
  cases hr : r.main_voltage <;> simp [step_main, hr, apply_ite]

theorem step_main_keeps_robo (r : DeviceResponses) (s : RoboclawGUI) :
    (step_main r s).roboclaw = s.roboclaw := by
  cases hr : r.main_voltage <;> simp [step_main, hr, apply_ite]

theorem step_logic_keeps_main (r : DeviceResponses) (s : RoboclawGUI) :
    (step_logic r s).main_battery_voltage = s.main_battery_voltage := by
  cases hr : r.logic_voltage <;> simp [step_logic, hr, apply_ite]

theorem step_logic_keeps_enc1 (r : DeviceResponses) (s : RoboclawGUI) :
    (step_logic r s).encoder_m1 = s.encoder_m1 := by
  cases hr : r.logic_voltage <;> simp [step_logic, hr, apply_ite]

theorem step_logic_keeps_enc2 (r : DeviceResponses) (s : RoboclawGUI) :
    (step_logic r s).encoder_m2 = s.encoder_m2 := by
  cases hr : r.logic_voltage <;> simp [step_logic, hr, apply_ite]

theorem step_logic_keeps_sflags (r : DeviceResponses) (s : RoboclawGUI) :
    (step_logic r s).status_flags = s.status_flags := by
  cases hr : r.logic_voltage <;> simp [step_logic, hr, apply_ite]

theorem step_logic_keeps_cflags (r : DeviceResponses) (s : RoboclawGUI) :
    (step_logic r s).config_flags = s.config_flags := by
  cases hr : r.logic_voltage <;> simp [step_logic, hr, apply_ite]

theorem step_logic_keeps_buf (r : DeviceResponses) (s : RoboclawGUI) :
    (step_logic r s).buffer_status = s.buffer_status := by
  cases hr : r.logic_voltage <;> simp [step_logic, hr, apply_ite]

theorem step_logic_keeps_conn (r : DeviceResponses) (s : RoboclawGUI) :
    (step_logic r s).connected = s.connected := by
  cases hr : r.logic_voltage <;> simp [step_logic, hr, apply_ite]

theorem step_logic_keeps_robo (r : DeviceResponses) (s : RoboclawGUI) :
    (step_logic r s).roboclaw = s.roboclaw := by
  cases hr : r.logic_voltage <;> simp [step_logic, hr, apply_ite]

theorem step_enc_keeps_main (r : DeviceResponses) (s : RoboclawGUI) :
    (step_enc r s).main_battery_voltage = s.main_battery_voltage := by
  cases hr : r.encoders <;> simp [step_enc, hr, apply_ite]

theorem step_enc_keeps_logic (r : DeviceResponses) (s : RoboclawGUI) :
    (step_enc r s).logic_battery_voltage = s.logic_battery_voltage := by
  cases hr : r.encoders <;> simp [step_enc, hr, apply_ite]

theorem step_enc_keeps_sflags (r : DeviceResponses) (s : RoboclawGUI) :
    (step_enc r s).status_flags = s.status_flags := by
  cases hr : r.encoders <;> simp [step_enc, hr, apply_ite]

theorem step_enc_keeps_cflags (r : DeviceResponses) (s : RoboclawGUI) :
    (step_enc r s).config_flags = s.config_flags := by
  cases hr : r.encoders <;> simp [step_enc, hr, apply_ite]

theorem step_enc_keeps_buf (r : DeviceResponses) (s : RoboclawGUI) :
    (step_enc r s).buffer_status = s.buffer_status := by
  cases hr : r.encoders <;> simp [step_enc, hr, apply_ite]

theorem step_enc_keeps_conn (r : DeviceResponses) (s : RoboclawGUI) :
    (step_enc r s).connected = s.connected := by
  cases hr : r.encoders <;> simp [step_enc, hr, apply_ite]

theorem step_enc_keeps_robo (r : DeviceResponses) (s : RoboclawGUI) :
    (step_enc r s).roboclaw = s.roboclaw := by
  cases hr : r.encoders <;> simp [step_enc, hr, apply_ite]

theorem step_err_keeps_main (r : DeviceResponses) (s : RoboclawGUI) :
    (step_err r s).main_battery_voltage = s.main_battery_voltage := by
  cases hr : r.error_flags <;> simp [step_err, hr, apply_ite]

theorem step_err_keeps_logic (r : DeviceResponses) (s : RoboclawGUI) :
    (step_err r s).logic_battery_voltage = s.logic_battery_voltage := by
  cases hr : r.error_flags <;> simp [step_err, hr, apply_ite]

theorem step_err_keeps_enc1 (r : DeviceResponses) (s : RoboclawGUI) :
    (step_err r s).encoder_m1 = s.encoder_m1 := by
  cases hr : r.error_flags <;> simp [step_err, hr, apply_ite]

theorem step_err_keeps_enc2 (r : DeviceResponses) (s : RoboclawGUI) :
    (step_err r s).encoder_m2 = s.encoder_m2 := by
  cases hr : r.error_flags <;> simp [step_err, hr, apply_ite]

theorem step_err_keeps_cflags (r : DeviceResponses) (s : RoboclawGUI) :
    (step_err r s).config_flags = s.config_flags := by
  cases hr : r.error_flags <;> simp [step_err, hr, apply_ite]

theorem step_err_keeps_buf (r : DeviceResponses) (s : RoboclawGUI) :
    (step_err r s).buffer_status = s.buffer_status := by
  cases hr : r.error_flags <;> simp [step_err, hr, apply_ite]

theorem step_err_keeps_conn (r : DeviceResponses) (s : RoboclawGUI) :
    (step_err r s).connected = s.connected := by
  cases hr : r.error_flags <;> simp [step_err, hr, apply_ite]

theorem step_err_keeps_robo (r : DeviceResponses) (s : RoboclawGUI) :
    (step_err r s).roboclaw = s.roboclaw := by
  cases hr : r.error_flags <;> simp [step_err, hr, apply_ite]

theorem step_config_keeps_main (r : DeviceResponses) (s : RoboclawGUI) :
    (step_config r s).main_battery_voltage = s.main_battery_voltage := by
  cases hr : r.config <;> simp [step_config, hr, apply_ite]

theorem step_config_keeps_logic (r : DeviceResponses) (s : RoboclawGUI) :
    (step_config r s).logic_battery_voltage = s.logic_battery_voltage := by
  cases hr : r.config <;> simp [step_config, hr, apply_ite]

theorem step_config_keeps_enc1 (r : DeviceResponses) (s : RoboclawGUI) :
    (step_config r s).encoder_m1 = s.encoder_m1 := by
  cases hr : r.config <;> simp [step_config, hr, apply_ite]

theorem step_config_keeps_enc2 (r : DeviceResponses) (s : RoboclawGUI) :
    (step_config r s).encoder_m2 = s.encoder_m2 := by
  cases hr : r.config <;> simp [step_config, hr, apply_ite]

theorem step_config_keeps_sflags (r : DeviceResponses) (s : RoboclawGUI) :
    (step_config r s).status_flags = s.status_flags := by
  cases hr : r.config <;> simp [step_config, hr, apply_ite]

theorem step_config_keeps_buf (r : DeviceResponses) (s : RoboclawGUI) :
    (step_config r s).buffer_status = s.buffer_status := by
  cases hr : r.config <;> simp [step_config, hr, apply_ite]

theorem step_config_keeps_conn (r : DeviceResponses) (s : RoboclawGUI) :
    (step_config r s).connected = s.connected := by
  cases hr : r.config <;> simp [step_config, hr, apply_ite]

theorem step_config_keeps_robo (r : DeviceResponses) (s : RoboclawGUI) :
    (step_config r s).roboclaw = s.roboclaw := by
  cases hr : r.config <;> simp [step_config, hr, apply_ite]

theorem step_buffers_keeps_main (r : DeviceResponses) (s : RoboclawGUI) :
    (step_buffers r s).main_battery_voltage = s.main_battery_voltage := by
  cases hr : r.buffers <;> simp [step_buffers, hr, apply_ite]

theorem step_buffers_keeps_logic (r : DeviceResponses) (s : RoboclawGUI) :
    (step_buffers r s).logic_battery_voltage = s.logic_battery_voltage := by
  cases hr : r.buffers <;> simp [step_buffers, hr, apply_ite]

theorem step_buffers_keeps_enc1 (r : DeviceResponses) (s : RoboclawGUI) :
    (step_buffers r s).encoder_m1 = s.encoder_m1 := by
  cases hr : r.buffers <;> simp [step_buffers, hr, apply_ite]

theorem step_buffers_keeps_enc2 (r : DeviceResponses) (s : RoboclawGUI) :
    (step_buffers r s).encoder_m2 = s.encoder_m2 := by
  cases hr : r.buffers <;> simp [step_buffers, hr, apply_ite]

theorem step_buffers_keeps_sflags (r : DeviceResponses) (s : RoboclawGUI) :
    (step_buffers r s).status_flags = s.status_flags := by
  cases hr : r.buffers <;> simp [step_buffers, hr, apply_ite]

theorem step_buffers_keeps_cflags (r : DeviceResponses) (s : RoboclawGUI) :
    (step_buffers r s).config_flags = s.config_flags := by
  cases hr : r.buffers <;> simp [step_buffers, hr, apply_ite]

theorem step_buffers_keeps_conn (r : DeviceResponses) (s : RoboclawGUI) :
    (step_buffers r s).connected = s.connected := by
  cases hr : r.buffers <;> simp [step_buffers, hr, apply_ite]

theorem step_buffers_keeps_robo (r : DeviceResponses) (s : RoboclawGUI) :
    (step_buffers r s).roboclaw = s.roboclaw := by
  cases hr : r.buffers <;> simp [step_buffers, hr, apply_ite]

/-! ### Whole-pass characterisation of the six telemetry fields -/

theorem body_main (r : DeviceResponses) (s : RoboclawGUI) :
    (read_status_body r s).main_battery_voltage =
      (match r.main_voltage with
       | .ok v => some v
       | .error _ => s.main_battery_voltage) := by
  unfold read_status_body
  rw [step_buffers_keeps_main, step_config_keeps_main, step_err_keeps_main,
      step_enc_keeps_main, step_logic_keeps_main]
  exact step_main_sets r s

theorem body_logic (r : DeviceResponses) (s : RoboclawGUI) :
    (read_status_body r s).logic_battery_voltage =
      (match r.logic_voltage with
       | .ok v => some v
       | .error _ => s.logic_battery_voltage) := by
  unfold read_status_body
  rw [step_buffers_keeps_logic, step_config_keeps_logic, step_err_keeps_logic,
      step_enc_keeps_logic, step_logic_sets, step_main_keeps_logic]

theorem body_enc1 (r : DeviceResponses) (s : RoboclawGUI) :
    (read_status_body r s).encoder_m1 =
      (match r.encoders with
       | .ok enc => some enc.1
       | .error _ => s.encoder_m1) := by
  unfold read_status_body
  rw [step_buffers_keeps_enc1, step_config_keeps_enc1, step_err_keeps_enc1,
      (step_enc_sets r _).1, step_logic_keeps_enc1, step_main_keeps_enc1]

theorem body_enc2 (r : DeviceResponses) (s : RoboclawGUI) :
    (read_status_body r s).encoder_m2 =
      (match r.encoders with
       | .ok enc => some enc.2
       | .error _ => s.encoder_m2) := by
  unfold read_status_body
  rw [step_buffers_keeps_enc2, step_config_keeps_enc2, step_err_keeps_enc2,
      (step_enc_sets r _).2, step_logic_keeps_enc2, step_main_keeps_enc2]

theorem body_sflags (r : DeviceResponses) (s : RoboclawGUI) :
    (read_status_body r s).status_flags =
      (match r.error_flags with
       | .ok flags => some flags
       | .error _ => s.status_flags) := by
  unfold read_status_body
  rw [step_buffers_keeps_sflags, step_config_keeps_sflags, step_err_sets,
      step_enc_keeps_sflags, step_logic_keeps_sflags, step_main_keeps_sflags]

theorem body_cflags (r : DeviceResponses) (s : RoboclawGUI) :
    (read_status_body r s).config_flags =
      (match r.config with
       | .ok config => some config
       | .error _ => s.config_flags) := by
  unfold read_status_body
  rw [step_buffers_keeps_cflags, step_config_sets, step_err_keeps_cflags,
      step_enc_keeps_cflags, step_logic_keeps_cflags, step_main_keeps_cflags]

theorem body_buf (r : DeviceResponses) (s : RoboclawGUI) :
    (read_status_body r s).buffer_status =
      (match r.buffers with
       | .ok buffers => some buffers
       | .error _ => s.buffer_status) := by
  unfold read_status_body
  rw [step_buffers_sets, step_config_keeps_buf, step_err_keeps_buf,
      step_enc_keeps_buf, step_logic_keeps_buf, step_main_keeps_buf]

theorem body_conn (r : DeviceResponses) (s : RoboclawGUI) :
    (read_status_body r s).connected = s.connected := by
  unfold read_status_body
  rw [step_buffers_keeps_conn, step_config_keeps_conn, step_err_keeps_conn,
      step_enc_keeps_conn, step_logic_keeps_conn, step_main_keeps_conn]

theorem body_robo (r : DeviceResponses) (s : RoboclawGUI) :
    (read_status_body r s).roboclaw = s.roboclaw := by
  unfold read_status_body
  rw [step_buffers_keeps_robo, step_config_keeps_robo, step_err_keeps_robo,
      step_enc_keeps_robo, step_logic_keeps_robo, step_main_keeps_robo]

theorem read_status_fst_conn (now : Nat) (r : DeviceResponses) (s : RoboclawGUI) :
    (read_status now r s).1.connected = s.connected := by
  unfold read_status
  cases hrc : s.roboclaw with
  | none => rfl
  | some u =>
    dsimp only
    split
    · exact body_conn r s
    · rfl

theorem read_status_fst_robo (now : Nat) (r : DeviceResponses) (s : RoboclawGUI) :
    (read_status now r s).1.roboclaw = s.roboclaw := by
  unfold read_status
  cases hrc : s.roboclaw with
  | none => exact hrc
  | some u =>
    dsimp only
    split
    · exact (body_robo r s).trans hrc
    · exact hrc

/-! ### Status-message arbitration lemmas -/

theorem motor_err_shown_congr {s t : RoboclawGUI}
    (e : t.status_message = s.status_message) (h : motor_err_shown s) :
    motor_err_shown t := by
  rw [motor_err_shown, e]; exact h

theorem step_main_status_motor (r : DeviceResponses) (s : RoboclawGUI)
    (h : motor_err_shown s) : (step_main r s).status_message = s.status_message := by
  cases hr : r.main_voltage <;> rcases h with h | h <;> simp [step_main, hr, h]

theorem step_logic_status_motor (r : DeviceResponses) (s : RoboclawGUI)
    (h : motor_err_shown s) : (step_logic r s).status_message = s.status_message := by
  cases hr : r.logic_voltage <;> rcases h with h | h <;> simp [step_logic, hr, h]

theorem step_enc_status_motor (r : DeviceResponses) (s : RoboclawGUI)
    (h : motor_err_shown s) : (step_enc r s).status_message = s.status_message := by
  cases hr : r.encoders <;> rcases h with h | h <;> simp [step_enc, hr, h]

theorem step_err_status_motor (r : DeviceResponses) (s : RoboclawGUI)
    (h : motor_err_shown s) : (step_err r s).status_message = s.status_message := by
  cases hr : r.error_flags <;> rcases h with h | h <;> simp [step_err, hr, h]

theorem step_config_status_motor (r : DeviceResponses) (s : RoboclawGUI)
    (h : motor_err_shown s) : (step_config r s).status_message = s.status_message := by
  cases hr : r.config <;> rcases h with h | h <;> simp [step_config, hr, h]

theorem step_buffers_status_motor (r : DeviceResponses) (s : RoboclawGUI)
    (h : motor_err_shown s) : (step_buffers r s).status_message = s.status_message := by
  cases hr : r.buffers <;> rcases h with h | h <;> simp [step_buffers, hr, h]

theorem body_status_motor (r : DeviceResponses) (s : RoboclawGUI)
    (h : motor_err_shown s) :
    (read_status_body r s).status_message = s.status_message := by
  have e1 := step_main_status_motor r s h
  have h1 := motor_err_shown_congr e1 h
  have e2 := step_logic_status_motor r _ h1
  have h2 := motor_err_shown_congr e2 h1
  have e3 := step_enc_status_motor r _ h2
  have h3 := motor_err_shown_congr e3 h2
  have e4 := step_err_status_motor r _ h3
  have h4 := motor_err_shown_congr e4 h3
  have e5 := step_config_status_motor r _ h4
  have h5 := motor_err_shown_congr e5 h4
  have e6 := step_buffers_status_motor r _ h5
  unfold read_status_body
  rw [e6, e5, e4, e3, e2, e1]

theorem read_status_status_motor (now : Nat) (r : DeviceResponses) (s : RoboclawGUI)
    (h : motor_err_shown s) :
    (read_status now r s).1.status_message = s.status_message := by
  unfold read_status
  cases hrc : s.roboclaw with
  | none => rfl
  | some u =>
    dsimp only
    split
    · exact body_status_motor r s h
    · rfl

theorem step_config_status_errmark (r : DeviceResponses) (s : RoboclawGUI)
    (hc : strContains s.status_message "Failed to read error status" = true) :
    (step_config r s).status_message = s.status_message := by
  cases hr : r.config <;> simp [step_config, hr, hc]

theorem step_buffers_status_errmark (r : DeviceResponses) (s : RoboclawGUI)
    (hc : strContains s.status_message "Failed to read error status" = true) :
    (step_buffers r s).status_message = s.status_message := by
  cases hr : r.buffers <;> simp [step_buffers, hr, hc]

/-! ### Connection-flag/handle frame lemmas for each operation -/

theorem emergency_stop_conn_robo (s : RoboclawGUI) :
    (emergency_stop s).1.connected = s.connected ∧
    (emergency_stop s).1.roboclaw = s.roboclaw := by
  cases hrc : s.roboclaw <;> simp [emergency_stop, hrc]

theorem update_motor_conn_robo (res : Except String Unit) (s : RoboclawGUI) :
    (update_motor_speeds res s).1.connected = s.connected ∧
    (update_motor_speeds res s).1.roboclaw = s.roboclaw := by
  cases hrc : s.roboclaw <;> cases res <;> simp [update_motor_speeds, hrc, apply_ite]

theorem update_mixed_conn_robo (res : Except String Unit) (s : RoboclawGUI) :
    (update_mixed_control res s).1.connected = s.connected ∧
    (update_mixed_control res s).1.roboclaw = s.roboclaw := by
  cases hrc : s.roboclaw <;> cases res <;> simp [update_mixed_control, hrc, apply_ite]

theorem reset_click_conn_robo (r : Except String Unit) (s : RoboclawGUI) :
    (reset_encoders_click r s).connected = s.connected ∧
    (reset_encoders_click r s).roboclaw = s.roboclaw := by
  cases hrc : s.roboclaw <;> cases r <;> simp [reset_encoders_click, hrc]

theorem connect_error_conn_robo (e : String) (s : RoboclawGUI) :
    (connect (Except.error e) s).connected = s.connected ∧
    (connect (Except.error e) s).roboclaw = s.roboclaw := by
  simp [connect, apply_ite]

/-! ### Claim theorems -/

/-- C1 counterexample: with no device handle (disconnected), triggering the
emergency stop leaves the intent fields untouched — here `m1_speed` stays at
5, contradicting the claim that all four intent fields are reset to 0
regardless of connection state. -/
theorem c1_estop_counterexample :
    s_c1.roboclaw = none ∧ ¬ (emergency_stop s_c1).1.m1_speed = 0 := by
  refine ⟨rfl, fun h => ?_⟩
  have h5 : (5 : ℚ) = 0 := h
  norm_num at h5

/-- C1 (amended): when the device handle is present, the emergency stop
issues the device call `speed_m1_m2(0, 0)` and resets all four motor-intent
fields to 0; when the handle is absent it performs no device call and leaves
the whole state (intent fields included) unchanged. -/
theorem c1_estop_amended (s : RoboclawGUI) :
    (s.roboclaw = some () → emergency_stop s =
      ({ s with m1_speed := 0, m2_speed := 0, mixed_speed := 0, mixed_turn := 0 },
       some (0, 0))) ∧
    (s.roboclaw = none → emergency_stop s = (s, none)) := by
  constructor <;> intro h <;> unfold emergency_stop <;> rw [h]

/-- C1 witness: both branches of the amended claim at concrete states. -/
theorem c1_estop_amended_witness :
    emergency_stop s_c1w =
      ({ s_c1w with m1_speed := 0, m2_speed := 0, mixed_speed := 0, mixed_turn := 0 },
       some (0, 0)) ∧
    emergency_stop s_c1 = (s_c1, none) :=
  ⟨(c1_estop_amended s_c1w).1 rfl, (c1_estop_amended s_c1).2 rfl⟩

/-- C2 counterexample: a session showing "Reset encoders error: timeout" runs
one poll pass in which every read fails; the pass replaces the reset-error
message with a telemetry-read-failure message, so the reset-error message is
not in the protected top-priority class. -/
theorem c2_reset_priority_counterexample :
    s_c2.status_message = "Reset encoders error: timeout" ∧
    (read_status 501 dr_allErr s_c2).1.status_message =
      "Failed to read error status: crc error" := by
  exact ⟨rfl, by decide⟩

/-- C2 (amended): a failed reset-encoders call sets the status message to
"Reset encoders error: " followed by the device error text; but this message
is not in the top display-priority class: it does not carry the
motor/mixed-control-error markers that the telemetry write sites check, so a
failing telemetry read (here, main battery voltage) overwrites it. -/
theorem c2_reset_amended (s : RoboclawGUI) (e m : String) (r : DeviceResponses)
    (hc : s.roboclaw = some ()) (hr : r.main_voltage = Except.error m)
    (h1 : strContains (reset_encoders_click (Except.error e) s).status_message
      "Motor control error" = false)
    (h2 : strContains (reset_encoders_click (Except.error e) s).status_message
      "Mixed control error" = false) :
    (reset_encoders_click (Except.error e) s).status_message =
      "Reset encoders error: " ++ e ∧
    (step_main r (reset_encoders_click (Except.error e) s)).status_message =
      "Failed to read main battery voltage" := by
  constructor
  · unfold reset_encoders_click
    rw [hc]
  · simp [step_main, hr, h1, h2]

/-- C2 witness: the amended claim at a concrete session and pass. -/
theorem c2_reset_amended_witness :
    (reset_encoders_click (Except.error "timeout") sConn).status_message =
      "Reset encoders error: " ++ "timeout" ∧
    (step_main dr_allErr (reset_encoders_click (Except.error "timeout") sConn)).status_message =
      "Failed to read main battery voltage" :=
  c2_reset_amended sConn "timeout" "crc error" dr_allErr rfl rfl (by decide) (by decide)

/-- C3: while the status message carries a motor-control-error or
mixed-control-error marker, any sequence of poll passes — whatever each
device read returns — leaves the status message untouched; in particular no
telemetry-read-failure message ever replaces it. -/
theorem c3_motor_error_persists (passes : List (Nat × DeviceResponses))
    (s : RoboclawGUI) (h : motor_err_shown s) :
    (poll_passes passes s).status_message = s.status_message := by
  induction passes generalizing s with
  | nil => rfl
  | cons p rest ih =>
    have e := read_status_status_motor p.1 p.2 s h
    have h2 := motor_err_shown_congr e h
    show (poll_passes rest (read_status p.1 p.2 s).1).status_message = s.status_message
    rw [ih _ h2, e]

/-- C3 witness: two all-failing poll passes leave a motor-control-error
message in place. -/
theorem c3_motor_error_persists_witness :
    (poll_passes [(501, dr_allErr), (3000, dr_allErr)] s_c3).status_message =
      "Motor control error: timeout (M1:1000, M2:0)" :=
  c3_motor_error_persists [(501, dr_allErr), (3000, dr_allErr)] s_c3 (by decide)

/-- C4: in a poll pass that runs (handle present, interval elapsed), each
telemetry snapshot field is overwritten with the new value when its read
succeeds and is left exactly as it was — including `none` if never
populated — when its read fails. -/
theorem c4_telemetry_frame (now : Nat) (r : DeviceResponses) (s : RoboclawGUI)
    (hc : s.roboclaw = some ())
    (hg : now - s.last_update > polling_interval s) :
    (read_status now r s).1.main_battery_voltage =
      (match r.main_voltage with
       | .ok v => some v
       | .error _ => s.main_battery_voltage) ∧
    (read_status now r s).1.logic_battery_voltage =
      (match r.logic_voltage with
       | .ok v => some v
       | .error _ => s.logic_battery_voltage) ∧
    (read_status now r s).1.encoder_m1 =
      (match r.encoders with
       | .ok enc => some enc.1
       | .error _ => s.encoder_m1) ∧
    (read_status now r s).1.encoder_m2 =
      (match r.encoders with
       | .ok enc => some enc.2
       | .error _ => s.encoder_m2) ∧
    (read_status now r s).1.status_flags =
      (match r.error_flags with
       | .ok flags => some flags
       | .error _ => s.status_flags) ∧
    (read_status now r s).1.config_flags =
      (match r.config with
       | .ok config => some config
       | .error _ => s.config_flags) ∧
    (read_status now r s).1.buffer_status =
      (match r.buffers with
       | .ok buffers => some buffers
       | .error _ => s.buffer_status) := by
  have hrun : read_status now r s = ({ read_status_body r s with last_update := now }, true) := by
    unfold read_status
    rw [hc]
    exact if_pos hg
  rw [hrun]
  exact ⟨body_main r s, body_logic r s, body_enc1 r s, body_enc2 r s,
         body_sflags r s, body_cflags r s, body_buf r s⟩

/-- C4 witness: a pass where only the main-voltage read succeeds overwrites
that field and leaves every never-populated field at `none`. -/
theorem c4_telemetry_frame_witness :
    (read_status 501 dr_mix sConn).1.main_battery_voltage = some 12 ∧
    (read_status 501 dr_mix sConn).1.logic_battery_voltage = none ∧
    (read_status 501 dr_mix sConn).1.encoder_m1 = none ∧
    (read_status 501 dr_mix sConn).1.encoder_m2 = none ∧
    (read_status 501 dr_mix sConn).1.status_flags = none ∧
    (read_status 501 dr_mix sConn).1.config_flags = none ∧
    (read_status 501 dr_mix sConn).1.buffer_status = none :=
  c4_telemetry_frame 501 dr_mix sConn rfl (by decide)

/-- C5: once the status message is the fault-register read-failure message
("Failed to read error status: " plus the error text), the two remaining
reads of the same pass — config and buffers — cannot overwrite it, whatever
their outcomes. -/
theorem c5_fault_msg_suppresses (r : DeviceResponses) (s : RoboclawGUI) (e : String)
    (h : s.status_message = "Failed to read error status: " ++ e) :
    (step_buffers r (step_config r s)).status_message = s.status_message := by
  have hc : strContains s.status_message "Failed to read error status" = true := by
    rw [h]; exact strContains_errmark e
  have e5 := step_config_status_errmark r s hc
  have hc2 : strContains (step_config r s).status_message
      "Failed to read error status" = true := by
    rw [e5]; exact hc
  have e6 := step_buffers_status_errmark r _ hc2
  rw [e6, e5]

/-- C5 witness: failing config and buffer reads do not overwrite a concrete
fault-register read-failure message. -/
theorem c5_fault_msg_suppresses_witness :
    (step_buffers dr_allErr (step_config dr_allErr s_c5)).status_message =
      "Failed to read error status: crc error" :=
  c5_fault_msg_suppresses dr_allErr s_c5 "crc error" (by decide)

/-- C6: `read_status` issues device reads only when the elapsed time exceeds
the effective interval — 2000 ms when the status message contains "crc error"
or "Failed to read", 500 ms otherwise; when the interval has not elapsed, the
session state is returned unchanged and no reads occur. -/
theorem c6_adaptive_polling (now : Nat) (r : DeviceResponses) (s : RoboclawGUI) :
    ((read_status now r s).2 = true →
      now - s.last_update >
        (if strContains s.status_message "crc error" ||
            strContains s.status_message "Failed to read" then 2000 else 500)) ∧
    (now - s.last_update ≤
        (if strContains s.status_message "crc error" ||
            strContains s.status_message "Failed to read" then 2000 else 500) →
      read_status now r s = (s, false)) := by
  unfold read_status polling_interval
  cases hrc : s.roboclaw with
  | none => exact ⟨fun h => (Bool.false_ne_true h).elim, fun _ => rfl⟩
  | some u =>
    dsimp only
    by_cases hg : now - s.last_update >
        (if strContains s.status_message "crc error" ||
            strContains s.status_message "Failed to read" then 2000 else 500)
    · rw [if_pos hg]
      exact ⟨fun _ => hg, fun hle => absurd hg (not_lt.mpr hle)⟩
    · rw [if_neg hg]
      exact ⟨fun h => (Bool.false_ne_true h).elim, fun _ => rfl⟩

/-- C6 witness: at 501 ms a normal-status poll runs (interval 500), at 400 ms
it does not and the state is unchanged. -/
theorem c6_adaptive_polling_witness :
    (501 - sConn.last_update >
      (if strContains sConn.status_message "crc error" ||
          strContains sConn.status_message "Failed to read" then 2000 else 500)) ∧
    read_status 400 dr_allOk sConn = (sConn, false) :=
  ⟨(c6_adaptive_polling 501 dr_allOk sConn).1 (by decide),
   (c6_adaptive_polling 400 dr_allOk sConn).2 (by decide)⟩

/-- C7: with a device handle present, the mixed command sends
`(trunc(speed*1000 - turn*500), trunc(speed*1000 + turn*500))` (truncation
toward zero) in one `speed_m1_m2` call, whatever the send outcome. -/
theorem c7_mixed_scaling (res : Except String Unit) (s : RoboclawGUI)
    (hc : s.roboclaw = some ()) :
    (update_mixed_control res s).2 =
      some (truncToI32 (s.mixed_speed * 1000 - s.mixed_turn * 500),
            truncToI32 (s.mixed_speed * 1000 + s.mixed_turn * 500)) := by
  unfold update_mixed_control
  rw [hc]
  cases res <;> rfl

/-- C7 witness: input (speed 40, turn 20) yields the device call
`speed_m1_m2(30000, 50000)`. -/
theorem c7_mixed_scaling_witness :
    (update_mixed_control (Except.ok ()) s_c7).2 = some (30000, 50000) := by
  rw [c7_mixed_scaling (Except.ok ()) s_c7 rfl]
  norm_num [s_c7, defaultGUI, truncToI32, Int.tdiv_one]

/-- C8: with a device handle present, the individual-motor command sends
`(trunc(m1*1000), trunc(m2*1000))` (truncation toward zero) in one
`speed_m1_m2` call covering both channels, whatever the send outcome; with no
handle, the operation performs no device call and changes nothing. -/
theorem c8_individual_scaling (res : Except String Unit) (s : RoboclawGUI) :
    (s.roboclaw = some () →
      (update_motor_speeds res s).2 =
        some (truncToI32 (s.m1_speed * 1000), truncToI32 (s.m2_speed * 1000))) ∧
    (s.roboclaw = none → update_motor_speeds res s = (s, none)) := by
  constructor
  · intro h
    unfold update_motor_speeds
    rw [h]
    cases res <;> rfl
  · intro h
    unfold update_motor_speeds
    rw [h]

/-- C8 witness: input (M1 50, M2 -25) yields the device call
`speed_m1_m2(50000, -25000)`; disconnected, the operation is a no-op. -/
theorem c8_individual_scaling_witness :
    (update_motor_speeds (Except.ok ()) s_c8).2 = some (50000, -25000) ∧
    update_motor_speeds (Except.ok ()) defaultGUI = (defaultGUI, none) := by
  constructor
  · rw [(c8_individual_scaling (Except.ok ()) s_c8).1 rfl]
    norm_num [s_c8, defaultGUI, truncToI32, Int.tdiv_one]
  · exact (c8_individual_scaling (Except.ok ()) defaultGUI).2 rfl

/-- C9: `disconnect` is idempotent — applying it twice gives exactly the same
state as applying it once — and the state it produces agrees with the startup
state on the session components the claim names: `connected = false`, no
device handle, and the neutral "Disconnected" status message. -/
theorem c9_disconnect_idem (s : RoboclawGUI) :
    disconnect (disconnect s) = disconnect s ∧
    (disconnect s).connected = false ∧
    (disconnect s).roboclaw = none ∧
    (disconnect s).status_message = "Disconnected" ∧
    (disconnect s).connected = defaultGUI.connected ∧
    (disconnect s).roboclaw = defaultGUI.roboclaw ∧
    (disconnect s).status_message = defaultGUI.status_message :=
  ⟨rfl, rfl, rfl, rfl, rfl, rfl, rfl⟩

/-- C10: the invariant `connected = handle-present` is preserved by every
operation; `connect` sets both together on success and touches neither on
failure, `disconnect` clears both together, and no other operation changes
either field. -/
theorem c10_conn_handle_invariant (s : RoboclawGUI) (r : Except String Unit)
    (now : Nat) (dr : DeviceResponses) (h : conn_inv s) :
    conn_inv (connect r s) ∧
    conn_inv (disconnect s) ∧
    conn_inv (emergency_stop s).1 ∧
    conn_inv (update_motor_speeds r s).1 ∧
    conn_inv (update_mixed_control r s).1 ∧
    conn_inv (read_status now dr s).1 ∧
    conn_inv (reset_encoders_click r s) ∧
    (emergency_stop s).1.connected = s.connected ∧
    (emergency_stop s).1.roboclaw = s.roboclaw ∧
    (update_motor_speeds r s).1.connected = s.connected ∧
    (update_motor_speeds r s).1.roboclaw = s.roboclaw ∧
    (update_mixed_control r s).1.connected = s.connected ∧
    (update_mixed_control r s).1.roboclaw = s.roboclaw ∧
    (read_status now dr s).1.connected = s.connected ∧
    (read_status now dr s).1.roboclaw = s.roboclaw ∧
    (reset_encoders_click r s).connected = s.connected ∧
    (reset_encoders_click r s).roboclaw = s.roboclaw ∧
    (∀ u, r = Except.ok u →
      (connect r s).connected = true ∧ (connect r s).roboclaw = some ()) ∧
    (∀ e, r = Except.error e →
      (connect r s).connected = s.connected ∧ (connect r s).roboclaw = s.roboclaw) ∧
    (disconnect s).connected = false ∧
    (disconnect s).roboclaw = none := by
  obtain ⟨he1, he2⟩ := emergency_stop_conn_robo s
  obtain ⟨hm1, hm2⟩ := update_motor_conn_robo r s
  obtain ⟨hx1, hx2⟩ := update_mixed_conn_robo r s
  have hr1 := read_status_fst_conn now dr s
  have hr2 := read_status_fst_robo now dr s
  obtain ⟨hk1, hk2⟩ := reset_click_conn_robo r s
  have hci : ∀ {t : RoboclawGUI}, t.connected = s.connected → t.roboclaw = s.roboclaw →
      conn_inv t := fun h1 h2 => by rw [conn_inv, h1, h2]; exact h
  refine ⟨?_, rfl, hci he1 he2, hci hm1 hm2, hci hx1 hx2, hci hr1 hr2, hci hk1 hk2,
    he1, he2, hm1, hm2, hx1, hx2, hr1, hr2, hk1, hk2, ?_, ?_, rfl, rfl⟩
  · cases r with
    | ok u => exact rfl
    | error e =>
      obtain ⟨hc1, hc2⟩ := connect_error_conn_robo e s
      exact hci hc1 hc2
  · intro u hru
    subst hru
    exact ⟨rfl, rfl⟩
  · intro e hre
    subst hre
    exact connect_error_conn_robo e s

/-- C10 witness: the invariant holds after a poll pass and after a successful
connect from the startup state. -/
theorem c10_conn_handle_invariant_witness :
    conn_inv (read_status 501 dr_allOk defaultGUI).1 ∧
    conn_inv (connect (Except.ok ()) defaultGUI) := by
  have h := c10_conn_handle_invariant defaultGUI (Except.ok ()) 501 dr_allOk rfl
  exact ⟨h.2.2.2.2.2.1, h.1⟩
